import Mathlib

/-
Verification of the DaVinci Resolve bridge script
(`scripts/davinci-resolve-bridge.py`).

The script is a command-line bridge: `argv[1]` selects one of five
subcommands (status, import, list-folders, create-folder, focus-search),
each handler talks to the DaVinci Resolve scripting SDK and prints one
JSON envelope.

Shallow embedding used here:

* The Media Pool folder tree is an inductive `Folder` (a name and a list
  of subfolders).  SDK mutation (`AddSubFolder`) is modelled by explicit
  state passing: the path resolver returns the updated tree together
  with the folder it hands back, identified by an index path.
* The outside world (SDK connection, filesystem, project state, OS
  automation) is an explicit `Env` record of oracles; each handler is a
  pure function of `Env` and its arguments, returning its result
  envelope together with a trace of the outward calls it performed.
* Python string operations are re-implemented with the same semantics
  over `List Char` (`pySplit` = `str.split`, `pyStrip` = `str.strip`,
  `pyLower` = `str.lower`, `pyStartsWith` = `str.startswith`,
  `joinSep` = `sep.join`), so that everything evaluates inside the
  kernel.
* Python truthiness of optional string arguments (`if target_folder:`)
  is modelled by `truthy`: absent or empty strings are falsy.
-/

/-! ## Python string semantics -/

/-- `str.split(sep)` for a one-character separator: splitting the empty
string yields `[""]`, adjacent separators yield empty fields. -/
def splitOnChar (sep : Char) : List Char → List (List Char)
  | [] => [[]]
  | c :: cs =>
    if c == sep then [] :: splitOnChar sep cs
    else
      match splitOnChar sep cs with
      | [] => [[c]]
      | l :: ls => (c :: l) :: ls

/-- Python `s.split(sep)` on strings (one-character separator). -/
def pySplit (sep : Char) (s : String) : List String :=
  (splitOnChar sep s.data).map (fun l => ⟨l⟩)

/-- Python `s.strip()`: drop whitespace from both ends. -/
def pyStrip (s : String) : String :=
  ⟨((s.data.dropWhile Char.isWhitespace).reverse.dropWhile Char.isWhitespace).reverse⟩

/-- Auxiliary: `pre` is a leading segment of `s` (on character lists). -/
def listStarts : List Char → List Char → Bool
  | [], _ => true
  | _ :: _, [] => false
  | a :: as, b :: bs => a == b && listStarts as bs

/-- Python `s.startswith(pre)`. -/
def pyStartsWith (s pre : String) : Bool := listStarts pre.data s.data

/-- Python `s.lower()` (ASCII case folding, as used for shortcut strings). -/
def pyLower (s : String) : String := ⟨s.data.map Char.toLower⟩

/-- Python `sep.join(parts)`. -/
def joinSep (sep : String) : List String → String
  | [] => ""
  | [x] => x
  | x :: y :: xs => x ++ sep ++ joinSep sep (y :: xs)

/-- Python truthiness of an optional string argument: `None` and `""`
are falsy, any other string is truthy. -/
def truthy : Option String → Bool
  | none => false
  | some s => s != ""

/-- A single-quote character as a string (used in the create-folder
failure message `Failed to create folder '<name>'`). -/
def squote : String := String.singleton (Char.ofNat 39)

/-! ## The Media Pool folder tree -/

/-- A Media Pool folder: `GetName()` and `GetSubFolderList()`. -/
inductive Folder where
  | node (name : String) (subs : List Folder)

/-- `folder.GetName()`. -/
def Folder.name : Folder → String
  | .node n _ => n

/-- `folder.GetSubFolderList()`. -/
def Folder.subs : Folder → List Folder
  | .node _ s => s

/-- The `for folder in subfolders: if folder.GetName() == part: ...`
search loop of `find_or_create_folder_path`: first subfolder whose name
equals `target`, together with its position. -/
def findSubIdx (target : String) : List Folder → Option (Nat × Folder)
  | [] => none
  | f :: fs =>
    if f.name = target then some (0, f)
    else
      match findSubIdx target fs with
      | some (i, g) => some (i + 1, g)
      | none => none

/-- Result of a folder-path walk: the updated folder (the mutation that
`media_pool.AddSubFolder` performs on the live tree), the folder object
the function returns, and the index path from the walked folder down to
that returned folder (its identity in the updated tree). -/
structure WalkResult where
  tree : Folder
  dest : Folder
  path : List Nat

/-- The segment loop of `find_or_create_folder_path`: for each raw
segment, strip it, skip it when empty, otherwise descend into the first
name-matching subfolder, or create a new subfolder (append to the
subfolder list) when none matches — success of `AddSubFolder` is the
oracle `addOk`, a function of the parent folder and the new name; on
creation failure return the current folder immediately. -/
def goParts (addOk : Folder → String → Bool) : Folder → List String → WalkResult
  | current, [] => ⟨current, current, []⟩
  | current, rawPart :: rest =>
    if pyStrip rawPart = "" then goParts addOk current rest
    else
      match findSubIdx (pyStrip rawPart) current.subs with
      | some (i, sub) =>
        ⟨Folder.node current.name (current.subs.set i (goParts addOk sub rest).tree),
          (goParts addOk sub rest).dest, i :: (goParts addOk sub rest).path⟩
      | none =>
        if addOk current (pyStrip rawPart) then
          ⟨Folder.node current.name
              (current.subs ++ [(goParts addOk (Folder.node (pyStrip rawPart) []) rest).tree]),
            (goParts addOk (Folder.node (pyStrip rawPart) []) rest).dest,
            current.subs.length :: (goParts addOk (Folder.node (pyStrip rawPart) []) rest).path⟩
        else ⟨current, current, []⟩

/-- `find_or_create_folder_path(media_pool, root_folder, folder_path)`:
empty (falsy) path returns the root unchanged, otherwise the path is
split on `/` and walked segment by segment. -/
def find_or_create_folder_path (addOk : Folder → String → Bool)
    (root_folder : Folder) (folder_path : String) : WalkResult :=
  if folder_path = "" then ⟨root_folder, root_folder, []⟩
  else goParts addOk root_folder (pySplit '/' folder_path)

/-! ## Spec-side restatement of the resolver (for claim C4)

The claim describes the resolver as: first normalise the segment list
(trim each segment, drop empty ones), then walk the remaining segments.
These definitions follow the claim's words; the theorem below compares
them with `find_or_create_folder_path`, which fuses stripping and
skipping into the loop as the source does. -/

/-- The claim's segment normalisation: split on `/`, trim whitespace
from each segment, skip empty segments. -/
def normalizeSegments (folder_path : String) : List String :=
  ((pySplit '/' folder_path).map pyStrip).filter (fun s => s != "")

/-- The claim's walk over already-normalised segments: descend into the
first immediate subfolder whose name equals the segment exactly, create
a new subfolder when none matches, and on creation failure return the
deepest folder reached so far (no error is signalled — the result is an
ordinary folder). -/
def specWalk (addOk : Folder → String → Bool) : Folder → List String → WalkResult
  | current, [] => ⟨current, current, []⟩
  | current, seg :: rest =>
    match findSubIdx seg current.subs with
    | some (i, sub) =>
      ⟨Folder.node current.name (current.subs.set i (specWalk addOk sub rest).tree),
        (specWalk addOk sub rest).dest, i :: (specWalk addOk sub rest).path⟩
    | none =>
      if addOk current seg then
        ⟨Folder.node current.name
            (current.subs ++ [(specWalk addOk (Folder.node seg []) rest).tree]),
          (specWalk addOk (Folder.node seg []) rest).dest,
          current.subs.length :: (specWalk addOk (Folder.node seg []) rest).path⟩
      else ⟨current, current, []⟩

/-- The resolver as the claim states it: normalise, then walk. -/
def resolveSpec (addOk : Folder → String → Bool)
    (root_folder : Folder) (folder_path : String) : WalkResult :=
  specWalk addOk root_folder (normalizeSegments folder_path)

theorem goParts_eq_specWalk (addOk : Folder → String → Bool) :
    ∀ (parts : List String) (current : Folder),
      goParts addOk current parts
        = specWalk addOk current ((parts.map pyStrip).filter (fun s => s != "")) := by
  intro parts
  induction parts with
  | nil => intro current; rfl
  | cons raw rest ih =>
    intro current
    by_cases hp : pyStrip raw = ""
    · simp [goParts, specWalk, hp, ih]
    · have hp' : (pyStrip raw != "") = true := by simpa using hp
      simp only [goParts, specWalk, List.map_cons, List.filter_cons, hp', if_pos, hp,
        if_false, ite_true]
      rcases hfind : findSubIdx (pyStrip raw) current.subs with _ | ⟨i, sub⟩
      · simp [specWalk, hfind, ih, hp]
      · simp [specWalk, hfind, ih, hp]

/-- **C4.** The folder-path resolver equals its spec-side restatement:
segments are processed left to right with per-segment whitespace
trimming and empty-segment skipping; each remaining segment descends
into the first exact-name-matching immediate subfolder, creates a new
subfolder when none matches, and on a creation failure the deepest
folder reached so far is returned without signalling an error. -/
theorem folder_path_resolver_spec_eq (addOk : Folder → String → Bool)
    (root_folder : Folder) (folder_path : String) :
    find_or_create_folder_path addOk root_folder folder_path
      = resolveSpec addOk root_folder folder_path := by
  by_cases h : folder_path = ""
  · subst h; rfl
  · simp only [find_or_create_folder_path, resolveSpec, normalizeSegments, if_neg h]
    exact goParts_eq_specWalk addOk (pySplit '/' folder_path) root_folder

/-! ## Idempotence of folder-path resolution (claim C5) -/

theorem findSubIdx_name {target : String} :
    ∀ {l : List Folder} {i : Nat} {g : Folder},
      findSubIdx target l = some (i, g) → g.name = target := by
  intro l
  induction l with
  | nil => intro i g h; simp [findSubIdx] at h
  | cons f fs ih =>
    intro i g h
    by_cases hf : f.name = target
    · simp [findSubIdx, hf] at h
      rcases h with ⟨h1, h2⟩
      subst h2; exact hf
    · simp only [findSubIdx, if_neg hf] at h
      rcases hfs : findSubIdx target fs with _ | ⟨j, g'⟩
      · rw [hfs] at h; simp at h
      · rw [hfs] at h
        simp at h
        rcases h with ⟨h1, h2⟩
        subst h2
        exact ih hfs

theorem findSubIdx_set_self {target : String} :
    ∀ {l : List Folder} {i : Nat} {g : Folder} (g' : Folder),
      findSubIdx target l = some (i, g) → g'.name = target →
      findSubIdx target (l.set i g') = some (i, g') := by
  intro l
  induction l with
  | nil => intro i g g' h _; simp [findSubIdx] at h
  | cons f fs ih =>
    intro i g g' h hg'
    by_cases hf : f.name = target
    · simp [findSubIdx, hf] at h
      rcases h with ⟨h1, h2⟩
      subst h1
      simp [List.set, findSubIdx, hg']
    · simp only [findSubIdx, if_neg hf] at h
      rcases hfs : findSubIdx target fs with _ | ⟨j, g2⟩
      · rw [hfs] at h; simp at h
      · rw [hfs] at h
        simp at h
        rcases h with ⟨h1, h2⟩
        subst h1 h2
        simp [List.set, findSubIdx, if_neg hf, ih g' hfs hg']

theorem findSubIdx_append_none {target : String} :
    ∀ {l : List Folder} (g : Folder),
      findSubIdx target l = none → g.name = target →
      findSubIdx target (l ++ [g]) = some (l.length, g) := by
  intro l
  induction l with
  | nil => intro g _ hg; simp [findSubIdx, hg]
  | cons f fs ih =>
    intro g h hg
    by_cases hf : f.name = target
    · simp [findSubIdx, hf] at h
    · simp only [findSubIdx, if_neg hf] at h
      rcases hfs : findSubIdx target fs with _ | p
      · rw [List.cons_append]
        simp only [findSubIdx, if_neg hf]
        rw [ih g hfs hg]
        simp
      · rw [hfs] at h; rcases p with ⟨j, g2⟩; simp at h

theorem set_length_append (l : List Folder) (a b : Folder) :
    (l ++ [a]).set l.length b = l ++ [b] := by
  induction l with
  | nil => rfl
  | cons x xs ih => simp [List.set, ih]

theorem goParts_tree_name (addOk : Folder → String → Bool) :
    ∀ (parts : List String) (current : Folder),
      (goParts addOk current parts).tree.name = current.name := by
  intro parts
  induction parts with
  | nil => intro current; rfl
  | cons raw rest ih =>
    intro current
    by_cases hp : pyStrip raw = ""
    · simp [goParts, hp, ih]
    · simp only [goParts, if_neg hp]
      rcases hfind : findSubIdx (pyStrip raw) current.subs with _ | ⟨i, sub⟩
      · by_cases hok : addOk current (pyStrip raw)
        · simp [hok, Folder.name]
        · simp [hok]
      · simp [Folder.name]

theorem goParts_idem (addOk : Folder → String → Bool) :
    ∀ (parts : List String) (current : Folder),
      goParts addOk (goParts addOk current parts).tree parts
        = goParts addOk current parts := by
  intro parts
  induction parts with
  | nil => intro current; rfl
  | cons raw rest ih =>
    intro current
    obtain ⟨cn, cs⟩ := current
    by_cases hp : pyStrip raw = ""
    · simp only [goParts, if_pos hp]; exact ih _
    · rcases hfind : findSubIdx (pyStrip raw) cs with _ | ⟨i, sub⟩
      · by_cases hok : addOk (Folder.node cn cs) (pyStrip raw) = true
        · have hrun : goParts addOk (Folder.node cn cs) (raw :: rest)
              = ⟨Folder.node cn
                  (cs ++ [(goParts addOk (Folder.node (pyStrip raw) []) rest).tree]),
                (goParts addOk (Folder.node (pyStrip raw) []) rest).dest,
                cs.length
                  :: (goParts addOk (Folder.node (pyStrip raw) []) rest).path⟩ := by
            simp only [goParts, if_neg hp, Folder.subs, Folder.name, hfind, hok, if_true]
          rw [hrun]
          have hname : (goParts addOk (Folder.node (pyStrip raw) []) rest).tree.name
              = pyStrip raw := goParts_tree_name addOk rest (Folder.node (pyStrip raw) [])
          have hfind2 : findSubIdx (pyStrip raw)
              (cs ++ [(goParts addOk (Folder.node (pyStrip raw) []) rest).tree])
              = some (cs.length,
                  (goParts addOk (Folder.node (pyStrip raw) []) rest).tree) :=
            findSubIdx_append_none _ hfind hname
          simp only [goParts, if_neg hp, Folder.subs, Folder.name, hfind2]
          rw [ih (Folder.node (pyStrip raw) [])]
          simp [set_length_append]
        · have hrun : goParts addOk (Folder.node cn cs) (raw :: rest)
              = ⟨Folder.node cn cs, Folder.node cn cs, []⟩ := by
            simp only [goParts, if_neg hp, Folder.subs, Folder.name, hfind]
            simp [hok]
          rw [hrun]
          exact hrun
      · have hsub : sub.name = pyStrip raw := findSubIdx_name hfind
        have hname : (goParts addOk sub rest).tree.name = pyStrip raw := by
          rw [goParts_tree_name addOk rest sub, hsub]
        have hrun : goParts addOk (Folder.node cn cs) (raw :: rest)
            = ⟨Folder.node cn
                (cs.set i (goParts addOk sub rest).tree),
              (goParts addOk sub rest).dest, i :: (goParts addOk sub rest).path⟩ := by
          simp only [goParts, if_neg hp, Folder.subs, Folder.name, hfind]
        rw [hrun]
        have hfind2 : findSubIdx (pyStrip raw)
            (cs.set i (goParts addOk sub rest).tree)
            = some (i, (goParts addOk sub rest).tree) :=
          findSubIdx_set_self _ hfind hname
        simp only [goParts, if_neg hp, Folder.subs, Folder.name, hfind2]
        rw [ih sub]
        simp [List.set_set]

/-- **C5.** Folder-path resolution is idempotent: running the resolver a
second time on the tree produced by a first run changes nothing — it
finds each segment's folder already in place (first exact match, which
the first run either found or appended), creates no new folders, and
returns the same folder at the same position.  `addOk` is the
`AddSubFolder` success oracle, a deterministic function of the parent
folder and the new name. -/
theorem folder_path_resolution_idempotent (addOk : Folder → String → Bool)
    (root_folder : Folder) (folder_path : String) :
    find_or_create_folder_path addOk
        (find_or_create_folder_path addOk root_folder folder_path).tree folder_path
      = find_or_create_folder_path addOk root_folder folder_path := by
  by_cases h : folder_path = ""
  · subst h; rfl
  · simp only [find_or_create_folder_path, if_neg h]
    exact goParts_idem addOk (pySplit '/' folder_path) root_folder

/-! ## Folder listing (claim C6)

`list_folders` walks the tree with the inner recursive function
`get_folder_tree(folder, path="")`, producing `{name, path}` entries:
the folder itself first, then each subfolder's entries in list order. -/

/-- One `{"name": ..., "path": ...}` entry of the `list-folders` output. -/
structure Entry where
  name : String
  path : String
deriving DecidableEq

mutual

/-- `get_folder_tree(folder, path)` from `list_folders`: emit the
folder's own entry (path extended as `f"{path}/{name}" if path else
name`), then recurse into the subfolders in order, extending the
accumulated list (`folders.extend(...)`). -/
def get_folder_tree : Folder → String → List Entry
  | .node name subs, path =>
    ⟨name, if path = "" then name else path ++ "/" ++ name⟩
      :: get_folder_forest subs (if path = "" then name else path ++ "/" ++ name)

/-- The `for subfolder in subfolders` loop of `get_folder_tree`. -/
def get_folder_forest : List Folder → String → List Entry
  | [], _ => []
  | f :: fs, p => get_folder_tree f p ++ get_folder_forest fs p

end

mutual

/-- Depth-first listing as the claim words it: a flat sequence in
depth-first order, each parent before its children, where each entry's
path is the `/`-joined names of its ancestors ending in its own name
(`anc` is the list of ancestor names). -/
def dfsSpec : List String → Folder → List Entry
  | anc, .node name subs =>
    ⟨name, joinSep "/" (anc ++ [name])⟩ :: dfsForest (anc ++ [name]) subs

/-- Children of a node, in order, for `dfsSpec`. -/
def dfsForest : List String → List Folder → List Entry
  | _, [] => []
  | anc, f :: fs => dfsSpec anc f ++ dfsForest anc fs

end

mutual

/-- Every folder name in the tree is nonempty. -/
def namesNonempty : Folder → Bool
  | .node n subs => (n != "") && forestNamesNonempty subs

/-- Every folder name in the forest is nonempty. -/
def forestNamesNonempty : List Folder → Bool
  | [] => true
  | f :: fs => namesNonempty f && forestNamesNonempty fs

end

theorem str_append_assoc (a b c : String) : (a ++ b) ++ c = a ++ (b ++ c) := by
  apply String.ext
  simp [String.data_append, List.append_assoc]

theorem joinSep_ne_empty :
    ∀ (l : List String), l ≠ [] → l.all (fun s => s != "") = true →
      joinSep "/" l ≠ "" := by
  intro l
  match l with
  | [] => intro h _; exact absurd rfl h
  | [x] =>
    intro _ hall
    have hx : x ≠ "" := by
      simp only [List.all_cons, List.all_nil, Bool.and_true, bne_iff_ne, ne_eq] at hall
      exact hall
    simpa [joinSep] using hx
  | x :: y :: xs =>
    intro _ _ h
    rw [show joinSep "/" (x :: y :: xs) = x ++ "/" ++ joinSep "/" (y :: xs) from rfl] at h
    have hlen := congrArg String.length h
    rw [String.length_append, String.length_append] at hlen
    have h1 : ("/" : String).length = 1 := rfl
    have h0 : ("" : String).length = 0 := rfl
    omega

theorem joinSep_snoc :
    ∀ (anc : List String) (n : String), anc.all (fun s => s != "") = true →
      joinSep "/" (anc ++ [n])
        = if joinSep "/" anc = "" then n else joinSep "/" anc ++ "/" ++ n := by
  intro anc
  induction anc with
  | nil => intro n _; simp [joinSep]
  | cons a tl ih =>
    intro n hall
    simp only [List.all_cons, Bool.and_eq_true] at hall
    rcases hall with ⟨ha, htl⟩
    match tl with
    | [] =>
      have ha' : a ≠ "" := by simpa using ha
      simp [joinSep, if_neg ha']
    | b :: tl2 =>
      have hne : joinSep "/" (b :: tl2) ≠ "" :=
        joinSep_ne_empty (b :: tl2) (by simp) htl
      have hne2 : joinSep "/" (a :: b :: tl2) ≠ "" := by
        apply joinSep_ne_empty (a :: b :: tl2) (by simp)
        simp only [List.all_cons, Bool.and_eq_true]
        exact ⟨ha, by simpa [List.all_cons] using htl⟩
      have hrec := ih n htl
      rw [if_neg hne] at hrec
      show joinSep "/" (a :: ((b :: tl2) ++ [n])) = _
      have hstep : joinSep "/" (a :: ((b :: tl2) ++ [n]))
          = a ++ "/" ++ joinSep "/" ((b :: tl2) ++ [n]) := rfl
      rw [hstep, hrec, if_neg hne2]
      simp [joinSep, str_append_assoc]

mutual

theorem get_folder_tree_eq_dfsSpec : ∀ (t : Folder) (anc : List String),
    namesNonempty t = true → anc.all (fun s => s != "") = true →
    get_folder_tree t (joinSep "/" anc) = dfsSpec anc t
  | .node name subs, anc, h1, h2 => by
    simp only [namesNonempty, Bool.and_eq_true] at h1
    rcases h1 with ⟨hname, hsubs⟩
    have hsnoc := joinSep_snoc anc name h2
    have hall : (anc ++ [name]).all (fun s => s != "") = true := by
      simp only [List.all_append, Bool.and_eq_true]
      exact ⟨h2, by simpa using hname⟩
    simp only [get_folder_tree, dfsSpec]
    rw [← hsnoc]
    rw [get_folder_forest_eq_dfsForest subs (anc ++ [name]) hsubs hall]

theorem get_folder_forest_eq_dfsForest : ∀ (l : List Folder) (anc : List String),
    forestNamesNonempty l = true → anc.all (fun s => s != "") = true →
    get_folder_forest l (joinSep "/" anc) = dfsForest anc l
  | [], _, _, _ => rfl
  | f :: fs, anc, h1, h2 => by
    simp only [forestNamesNonempty, Bool.and_eq_true] at h1
    rcases h1 with ⟨hf, hfs⟩
    simp only [get_folder_forest, dfsForest]
    rw [get_folder_tree_eq_dfsSpec f anc hf h2,
      get_folder_forest_eq_dfsForest fs anc hfs h2]

end

/-- **C6 (amended).** For every folder tree whose folder names are all
nonempty, the `list-folders` walk produces exactly the claim's
depth-first, parent-before-children flat sequence, each entry's path
being the `/`-joined names of its ancestors ending in its own name.
(The output is deterministic by construction: `get_folder_tree` is a
function of the tree.) -/
theorem folder_tree_dfs_spec_eq (t : Folder) (h : namesNonempty t = true) :
    get_folder_tree t "" = dfsSpec [] t := by
  have := get_folder_tree_eq_dfsSpec t [] h (by simp)
  simpa [joinSep] using this

/-- **C6 witness.** A concrete tree with nonempty names on which the
amended claim's hypothesis holds and the conclusion is produced by the
theorem. -/
theorem folder_tree_dfs_spec_eq_witness :
    namesNonempty
        (Folder.node "Master"
          [Folder.node "A" [Folder.node "B" []], Folder.node "C" []]) = true
    ∧ get_folder_tree
        (Folder.node "Master"
          [Folder.node "A" [Folder.node "B" []], Folder.node "C" []]) ""
      = dfsSpec []
          (Folder.node "Master"
            [Folder.node "A" [Folder.node "B" []], Folder.node "C" []]) :=
  ⟨rfl, folder_tree_dfs_spec_eq _ rfl⟩

/-- **C6 counterexample.** The claim as stated fails for a tree with an
empty folder name: under a root named `""`, the code's accumulated path
is the empty string, so a child `c` gets path `"c"`, while the
`/`-joined ancestor names ending in the child's own name give `"/c"`. -/
theorem list_folders_path_join_counterexample :
    get_folder_tree (Folder.node "" [Folder.node "c" []]) ""
        = [⟨"", ""⟩, ⟨"c", "c"⟩]
    ∧ dfsSpec [] (Folder.node "" [Folder.node "c" []])
        = [⟨"", ""⟩, ⟨"c", "/c"⟩]
    ∧ get_folder_tree (Folder.node "" [Folder.node "c" []]) ""
        ≠ dfsSpec [] (Folder.node "" [Folder.node "c" []]) :=
  ⟨rfl, rfl, by decide⟩

/-! ## Environment of oracles and call traces

`initialize_resolve`, the filesystem, the current project, and the OS
automation facilities are outside the script; they are modelled as a
record of oracles.  Each handler also returns the list of outward calls
it performed, in order (the SDK connection attempt, `SetCurrentFolder`,
`ImportMedia`, `AddSubFolder`, clipboard/keystroke automation, and
stderr warnings). -/

/-- The parsed metadata mapping (keys scene / comments / description).
`none` at the top level stands for a falsy Python value (`None` or an
empty dict); per-field `none`/`some ""` are both falsy under `truthy`,
matching `metadata.get(...)` truthiness. -/
structure Metadata where
  scene : Option String
  comments : Option String
  description : Option String

/-- Oracles for one process invocation.

* `connectError`: `initialize_resolve()` outcome — `some e` means it
  returned the error string `e` (module not found / import failure /
  app not running), `none` means a live handle was obtained.
* `fileExists`: `os.path.exists`.
* `hasProject` / `projectName`: `GetCurrentProject()` and its name.
* `currentFolder`: `GetCurrentFolder()` name (`none` = SDK returned
  `None`, which `get_status` replaces by `"Master"`).
* `root`: the Media Pool root folder tree.
* `addOk`: whether `media_pool.AddSubFolder(parent, name)` succeeds,
  as a deterministic function of the parent folder value and the name.
* `importOk` / `importedName`: whether `ImportMedia` returns a clip,
  and that clip's `GetName()`.
* `renameOk`: whether `SetClipProperty("Clip Name", ...)` succeeds.
* `metadataOk` / `metaErrMsg`: whether the `SetMetadata` calls succeed;
  on failure the first attempted call raises with message `metaErrMsg`.
* `jsonParse`: `json.loads` on the metadata argument — `none` means it
  raised `JSONDecodeError`.
* `platform`: `sys.platform` (`"darwin"`, `"win32"`, `"linux"`, ...).
* `winModulesError`: `some msg` means `import pyautogui` /
  `import pyperclip` raised `ImportError` with message `msg`.
* `activateOk` / `activateErrMsg`: whether bringing the application to
  the foreground succeeds (osascript on macOS, powershell on Windows);
  the raised `CalledProcessError`'s string on failure.
* `osaKeystrokeOk`: whether the macOS keystroke-injection osascript
  succeeds. -/
structure Env where
  connectError : Option String
  fileExists : String → Bool
  hasProject : Bool
  projectName : String
  currentFolder : Option String
  root : Folder
  addOk : Folder → String → Bool
  importOk : Bool
  importedName : String
  renameOk : Bool
  metadataOk : Bool
  metaErrMsg : String
  jsonParse : String → Option Metadata
  platform : String
  winModulesError : Option String
  activateOk : Bool
  activateErrMsg : String
  osaKeystrokeOk : Bool

/-- One outward call performed by a handler. -/
inductive Event where
  | connectAttempt
  | setCurrentFolder (folder : Folder)
  | importMediaCall (paths : List String)
  | setClipProperty (key value : String)
  | setMetadata (key value : String)
  | stderrWarn (msg : String)
  | addSubFolder (parent : Folder) (name : String)
  | clipboardCopy (text : String)
  | activateApp
  | hotkey (keys : List String)
  | osaKeystroke (key : String) (modifiers : String)

/-! ## Result envelopes

One structure per handler, mirroring the dictionaries the source
builds.  An `Option` field that is `none` models a JSON `null` when the
source always emits the key (status, import), and an absent key when
the source only sometimes emits it (`clipName`, `folderName`, and the
focus-search data fields). -/

/-- `status` envelope: `{connected, error, project, mediaPoolFolder}`. -/
structure StatusResult where
  connected : Bool
  error : Option String
  project : Option String
  mediaPoolFolder : Option String
deriving DecidableEq

/-- `import` envelope: `{success, error, project, folder}` plus
`clipName` (present on success only). -/
structure ImportResult where
  success : Bool
  error : Option String
  project : Option String
  folder : Option String
  clipName : Option String
deriving DecidableEq

/-- `list-folders` envelope: `{success, error, folders}`. -/
structure ListResult where
  success : Bool
  error : Option String
  folders : List Entry
deriving DecidableEq

/-- `create-folder` envelope: `{success, error}` plus `folderName`
(present on success only). -/
structure CreateResult where
  success : Bool
  error : Option String
  folderName : Option String
deriving DecidableEq

/-- `focus-search` envelope: `{success, error}` plus, on the paths that
emit them, `project`, `searchedClip`, `autoSearched`, `clipboardReady`. -/
structure FocusResult where
  success : Bool
  error : Option String
  project : Option String
  searchedClip : Option String
  autoSearched : Option Bool
  clipboardReady : Option Bool
deriving DecidableEq

/-! ## The five handlers -/

/-- `get_status()`. -/
def get_status (env : Env) : StatusResult × List Event :=
  match env.connectError with
  | some err => (⟨false, some err, none, none⟩, [Event.connectAttempt])
  | none =>
    if !env.hasProject then
      (⟨true, some "No active project in DaVinci Resolve", none, none⟩,
        [Event.connectAttempt])
    else
      (⟨true, none, some env.projectName, some (env.currentFolder.getD "Master")⟩,
        [Event.connectAttempt])

/-- The metadata fields `import_media` would set, in source order
(Scene, Comments, Description), keeping only truthy values. -/
def metaFields (m : Metadata) : List (String × String) :=
  (if truthy m.scene then [("Scene", m.scene.getD "")] else [])
    ++ (if truthy m.comments then [("Comments", m.comments.getD "")] else [])
    ++ (if truthy m.description then [("Description", m.description.getD "")] else [])

/-- `import_media(file_path, target_folder, clip_name, metadata)`.

Order of checks follows the source: connect, then `os.path.exists`,
then current project; then the target folder is resolved (creating
missing segments) when `target_folder` is truthy, `SetCurrentFolder`
and `ImportMedia` are called.  On import success the clip is renamed
when `clip_name` is truthy (a failure is swallowed and the name stays
`clip.GetName()`), and metadata is applied when truthy (a failure
prints a stderr warning and nothing more).  When `ImportMedia` yields a
clip we take it to be a real clip object, so the source's defensive
`if clip` guards are always taken. -/
def import_media (env : Env) (file_path : String)
    (target_folder clip_name : Option String) (metadata : Option Metadata) :
    ImportResult × List Event :=
  match env.connectError with
  | some err => (⟨false, some err, none, none, none⟩, [Event.connectAttempt])
  | none =>
    if !(env.fileExists file_path) then
      (⟨false, some ("File not found: " ++ file_path), none, none, none⟩,
        [Event.connectAttempt])
    else if !env.hasProject then
      (⟨false, some "No active project in DaVinci Resolve", none, none, none⟩,
        [Event.connectAttempt])
    else
      let target_media_folder :=
        if truthy target_folder then
          (find_or_create_folder_path env.addOk env.root (target_folder.getD "")).dest
        else env.root
      let folder_name :=
        if truthy target_folder then target_media_folder.name else "Master"
      let baseEvents := [Event.connectAttempt,
        Event.setCurrentFolder target_media_folder, Event.importMediaCall [file_path]]
      if env.importOk then
        let renameEvents :=
          if truthy clip_name then
            [Event.setClipProperty "Clip Name" (clip_name.getD "")]
          else []
        let final_clip_name :=
          if truthy clip_name && env.renameOk then clip_name.getD ""
          else env.importedName
        let metaEvents :=
          match metadata with
          | some m =>
            if metaFields m = [] then []
            else if env.metadataOk then
              (metaFields m).map fun kv => Event.setMetadata kv.1 kv.2
            else
              [Event.stderrWarn ("Warning: Failed to set metadata: " ++ env.metaErrMsg)]
          | none => []
        (⟨true, none, some env.projectName, some folder_name, some final_clip_name⟩,
          baseEvents ++ renameEvents ++ metaEvents)
      else
        (⟨false, some "Failed to import media into DaVinci Resolve",
            some env.projectName, some folder_name, none⟩, baseEvents)

/-- `list_folders()`. -/
def list_folders (env : Env) : ListResult × List Event :=
  match env.connectError with
  | some err => (⟨false, some err, []⟩, [Event.connectAttempt])
  | none =>
    if !env.hasProject then
      (⟨false, some "No active project", []⟩, [Event.connectAttempt])
    else
      (⟨true, none, get_folder_tree env.root ""⟩, [Event.connectAttempt])

/-- The `for folder in subfolders` parent-search loop of
`create_folder`: first subfolder of the root whose name equals
`target` (the loop `break`s at the first match). -/
def firstNamed (target : String) : List Folder → Option Folder
  | [] => none
  | f :: fs => if f.name = target then some f else firstNamed target fs

/-- `create_folder(folder_name, parent_path)`: the parent defaults to
the root; only a truthy `parent_path` triggers the search over the
root's immediate children. -/
def create_folder (env : Env) (folder_name : String) (parent_path : Option String) :
    CreateResult × List Event :=
  match env.connectError with
  | some err => (⟨false, some err, none⟩, [Event.connectAttempt])
  | none =>
    if !env.hasProject then
      (⟨false, some "No active project", none⟩, [Event.connectAttempt])
    else
      let parent_folder :=
        if truthy parent_path then
          (firstNamed (parent_path.getD "") env.root.subs).getD env.root
        else env.root
      if env.addOk parent_folder folder_name then
        (⟨true, none, some folder_name⟩,
          [Event.connectAttempt, Event.addSubFolder parent_folder folder_name])
      else
        (⟨false, some ("Failed to create folder " ++ squote ++ folder_name ++ squote),
            none⟩,
          [Event.connectAttempt, Event.addSubFolder parent_folder folder_name])

/-- The `modifier_map` table of the macOS shortcut parser. -/
def modifier_map : String → Option String
  | "cmd" => some "command down"
  | "command" => some "command down"
  | "shift" => some "shift down"
  | "alt" => some "option down"
  | "option" => some "option down"
  | "ctrl" => some "control down"
  | "control" => some "control down"
  | _ => none

/-- `focus_and_search(clip_name, target_folder, search_shortcut)`.

After the shared connect / project / folder-navigation steps the
source branches on `sys.platform`:

* macOS (`darwin`): copy to clipboard, activate the application (a
  `CalledProcessError` is caught and reported); when a truthy shortcut
  parses to a nonempty modifier string, send the parsed keystroke plus
  a cmd+v paste via osascript, reporting `autoSearched` on success and
  falling back to the `clipboardReady` manual answer on failure or
  when no usable shortcut is given.
* Windows (`win*`): the missing-modules `ImportError` is reported
  first; then copy to clipboard, activate via powershell (any
  exception is caught and reported), and send ctrl+f then ctrl+v with
  `pyautogui.hotkey` — the `search_shortcut` argument is never read on
  this branch.
* any other platform: unsupported-platform error. -/
def focus_and_search (env : Env) (clip_name : String)
    (target_folder search_shortcut : Option String) : FocusResult × List Event :=
  match env.connectError with
  | some err => (⟨false, some err, none, none, none, none⟩, [Event.connectAttempt])
  | none =>
    if !env.hasProject then
      (⟨false, some "No active project in DaVinci Resolve", none, none, none, none⟩,
        [Event.connectAttempt])
    else
      let navEvents :=
        if truthy target_folder then
          [Event.setCurrentFolder
            (find_or_create_folder_path env.addOk env.root (target_folder.getD "")).dest]
        else []
      let pre := Event.connectAttempt :: navEvents
      if pyStartsWith env.platform "darwin" then
        let ev1 := pre ++ [Event.clipboardCopy clip_name]
        if !env.activateOk then
          (⟨false, some ("Failed to activate DaVinci Resolve: " ++ env.activateErrMsg),
              none, none, none, none⟩, ev1)
        else
          let ev2 := ev1 ++ [Event.activateApp]
          let parsed :=
            if truthy search_shortcut then
              let parts := pySplit '+' (pyLower (search_shortcut.getD ""))
              let modifier_str := joinSep ", " (parts.dropLast.filterMap modifier_map)
              if modifier_str = "" then none
              else some (parts.getLastD "", modifier_str)
            else none
          match parsed with
          | some km =>
            if env.osaKeystrokeOk then
              (⟨true, none, some env.projectName, some clip_name, some true, none⟩,
                ev2 ++ [Event.osaKeystroke km.1 km.2,
                  Event.osaKeystroke "v" "command down"])
            else
              (⟨true, none, some env.projectName, some clip_name, none, some true⟩, ev2)
          | none =>
            (⟨true, none, some env.projectName, some clip_name, none, some true⟩, ev2)
      else if pyStartsWith env.platform "win" then
        match env.winModulesError with
        | some ie =>
          (⟨false,
              some ("Missing module: " ++ ie ++ ". Run: pip install pyautogui pyperclip"),
              none, none, none, none⟩, pre)
        | none =>
          let ev1 := pre ++ [Event.clipboardCopy clip_name]
          if !env.activateOk then
            (⟨false, some ("Failed to automate DaVinci Resolve: " ++ env.activateErrMsg),
                none, none, none, none⟩, ev1)
          else
            (⟨true, none, some env.projectName, some clip_name, none, none⟩,
              ev1 ++ [Event.activateApp, Event.hotkey ["ctrl", "f"],
                Event.hotkey ["ctrl", "v"]])
      else
        (⟨false, some ("Platform " ++ env.platform ++ " not supported for UI automation"),
            none, none, none, none⟩, pre)

/-! ## JSON rendering and the CLI dispatcher -/

/-- A JSON value as `json.dumps` would serialise it. -/
inductive JVal where
  | jnull
  | jbool (b : Bool)
  | jstr (s : String)
  | jarr (items : List JVal)
  | jobj (fields : List (String × JVal))

/-- Python `None`-or-string to JSON. -/
def optStr : Option String → JVal
  | none => JVal.jnull
  | some s => JVal.jstr s

/-- The `status` dictionary, keys in insertion order. -/
def renderStatus (r : StatusResult) : List (String × JVal) :=
  [("connected", JVal.jbool r.connected), ("error", optStr r.error),
    ("project", optStr r.project), ("mediaPoolFolder", optStr r.mediaPoolFolder)]

/-- The `import` dictionary, keys in insertion order; `clipName` is
present only in the success envelope. -/
def renderImport (r : ImportResult) : List (String × JVal) :=
  [("success", JVal.jbool r.success), ("error", optStr r.error),
    ("project", optStr r.project), ("folder", optStr r.folder)]
    ++ (match r.clipName with
        | some c => [("clipName", JVal.jstr c)]
        | none => [])

/-- One `{name, path}` object of the `folders` array. -/
def renderEntry (e : Entry) : JVal :=
  JVal.jobj [("name", JVal.jstr e.name), ("path", JVal.jstr e.path)]

/-- The `list-folders` dictionary. -/
def renderList (r : ListResult) : List (String × JVal) :=
  [("success", JVal.jbool r.success), ("error", optStr r.error),
    ("folders", JVal.jarr (r.folders.map renderEntry))]

/-- The `create-folder` dictionary; `folderName` on success only. -/
def renderCreate (r : CreateResult) : List (String × JVal) :=
  [("success", JVal.jbool r.success), ("error", optStr r.error)]
    ++ (match r.folderName with
        | some f => [("folderName", JVal.jstr f)]
        | none => [])

/-- The `focus-search` dictionary; data keys only on the paths that
emit them. -/
def renderFocus (r : FocusResult) : List (String × JVal) :=
  [("success", JVal.jbool r.success), ("error", optStr r.error)]
    ++ (match r.project with
        | some p => [("project", JVal.jstr p)]
        | none => [])
    ++ (match r.searchedClip with
        | some c => [("searchedClip", JVal.jstr c)]
        | none => [])
    ++ (match r.autoSearched with
        | some b => [("autoSearched", JVal.jbool b)]
        | none => [])
    ++ (match r.clipboardReady with
        | some b => [("clipboardReady", JVal.jbool b)]
        | none => [])

/-- The dictionary `main` prints: one of the five handler envelopes, a
`{"success": false, "error": ...}` missing-argument envelope, or a bare
`{"error": ...}` envelope. -/
inductive CmdResult where
  | statusR (r : StatusResult)
  | importR (r : ImportResult)
  | listR (r : ListResult)
  | createR (r : CreateResult)
  | focusR (r : FocusResult)
  | simpleR (error : String)
  | errorR (error : String)

/-- `json.dumps(result)` as an ordered key/value list. -/
def render : CmdResult → List (String × JVal)
  | .statusR r => renderStatus r
  | .importR r => renderImport r
  | .listR r => renderList r
  | .createR r => renderCreate r
  | .focusR r => renderFocus r
  | .simpleR e => [("success", JVal.jbool false), ("error", JVal.jstr e)]
  | .errorR e => [("error", JVal.jstr e)]

/-- What one invocation of `main()` does: the printed envelope, the
outward calls made, and the process exit code. -/
structure MainOut where
  output : CmdResult
  trace : List Event
  exitCode : Nat

/-- `main()`: dispatch on `sys.argv[1]`.  `argv` includes the program
name at position 0.  Every branch is total, which models the fact that
no branch of the dispatcher raises (the source additionally wraps the
dispatch in a broad `except` that converts any exception into an
`{"error": ...}` envelope with exit code 1; no modelled branch reaches
it). -/
def main_dispatch (env : Env) (argv : List String) : MainOut :=
  match argv with
  | [] => ⟨CmdResult.errorR "No command provided", [], 1⟩
  | [_] => ⟨CmdResult.errorR "No command provided", [], 1⟩
  | _ :: command :: args =>
    if command = "status" then
      let r := get_status env
      ⟨CmdResult.statusR r.1, r.2, 0⟩
    else if command = "import" then
      match args with
      | [] => ⟨CmdResult.simpleR "No file path provided", [], 0⟩
      | file_path :: rest =>
        let target_folder :=
          match rest.get? 0 with
          | some s => if s = "" then none else some s
          | none => none
        let clip_name :=
          match rest.get? 1 with
          | some s => if s = "" then none else some s
          | none => none
        let metadata :=
          match rest.get? 2 with
          | some s => env.jsonParse s
          | none => none
        let r := import_media env file_path target_folder clip_name metadata
        ⟨CmdResult.importR r.1, r.2, 0⟩
    else if command = "list-folders" then
      let r := list_folders env
      ⟨CmdResult.listR r.1, r.2, 0⟩
    else if command = "create-folder" then
      match args with
      | [] => ⟨CmdResult.simpleR "No folder name provided", [], 0⟩
      | folder_name :: rest =>
        let r := create_folder env folder_name (rest.get? 0)
        ⟨CmdResult.createR r.1, r.2, 0⟩
    else if command = "focus-search" then
      match args with
      | [] => ⟨CmdResult.simpleR "No clip name provided", [], 0⟩
      | clip_name :: rest =>
        let r := focus_and_search env clip_name (rest.get? 0) (rest.get? 1)
        ⟨CmdResult.focusR r.1, r.2, 0⟩
    else
      ⟨CmdResult.errorR ("Unknown command: " ++ command), [], 0⟩

/-! ## Envelope checkers (claim C2) -/

/-- Look up a key in a rendered envelope. -/
def lookupKey : List (String × JVal) → String → Option JVal
  | [], _ => none
  | kv :: rest, k => if kv.1 = k then some kv.2 else lookupKey rest k

/-- Is this JSON value literally `false`? -/
def isFalseVal : JVal → Bool
  | JVal.jbool b => !b
  | _ => false

/-- The claim's criterion for an envelope that carries an error:
`success:false` or `connected:false`. -/
def isErrorEnvelope (ps : List (String × JVal)) : Bool :=
  (match lookupKey ps "success" with
    | some v => isFalseVal v
    | none => false)
  || (match lookupKey ps "connected" with
      | some v => isFalseVal v
      | none => false)

/-- Zeroed-out in the claim's sense: null or empty. -/
def isZeroVal : JVal → Bool
  | JVal.jnull => true
  | JVal.jarr [] => true
  | JVal.jstr "" => true
  | _ => false

/-- Key membership in the allowed (non-data) key list. -/
def keyAllowed : String → List String → Bool
  | _, [] => false
  | k, a :: rest => k == a || keyAllowed k rest

/-- Every field outside `allowed` is zeroed. -/
def zeroedOutside (ps : List (String × JVal)) (allowed : List String) : Bool :=
  ps.all fun kv => keyAllowed kv.1 allowed || isZeroVal kv.2

/-- Claim C2 as stated: whenever an envelope carries an error, every
operation-specific data field in it is zeroed out. -/
def checkErrorZeroed (ps : List (String × JVal)) : Bool :=
  !(isErrorEnvelope ps) || zeroedOutside ps ["success", "error", "connected"]

/-- Does the envelope carry the import-failure error message? -/
def isImportFailure (ps : List (String × JVal)) : Bool :=
  match lookupKey ps "error" with
  | some (JVal.jstr e) => e == "Failed to import media into DaVinci Resolve"
  | _ => false

/-- Claim C2 as amended: like `checkErrorZeroed`, except that the
failed-import envelope is allowed to carry the `project` and `folder`
fields. -/
def checkErrorZeroedAmended (ps : List (String × JVal)) : Bool :=
  !(isErrorEnvelope ps)
    || (if isImportFailure ps then
          zeroedOutside ps (["success", "error", "connected"] ++ ["project", "folder"])
        else zeroedOutside ps ["success", "error", "connected"])

theorem keyAllowed_append (k : String) (l1 l2 : List String)
    (h : keyAllowed k l1 = true) : keyAllowed k (l1 ++ l2) = true := by
  induction l1 with
  | nil => simp [keyAllowed] at h
  | cons a rest ih =>
    simp only [keyAllowed, Bool.or_eq_true] at h
    rcases h with h | h
    · simp [keyAllowed, h]
    · simp [keyAllowed, ih h]

theorem zeroedOutside_append (ps : List (String × JVal)) (l1 l2 : List String)
    (h : zeroedOutside ps l1 = true) : zeroedOutside ps (l1 ++ l2) = true := by
  simp only [zeroedOutside, List.all_eq_true, Bool.or_eq_true] at h ⊢
  intro kv hkv
  rcases h kv hkv with h2 | h2
  · exact Or.inl (keyAllowed_append _ _ _ h2)
  · exact Or.inr h2

theorem checkAmended_of_base (ps : List (String × JVal))
    (h : checkErrorZeroed ps = true) : checkErrorZeroedAmended ps = true := by
  unfold checkErrorZeroed at h
  unfold checkErrorZeroedAmended
  cases he : isErrorEnvelope ps with
  | false => simp
  | true =>
    rw [he] at h
    simp only [Bool.not_true, Bool.false_or] at h ⊢
    by_cases hf : isImportFailure ps = true
    · rw [if_pos hf]
      exact zeroedOutside_append _ _ _ h
    · rw [if_neg hf]
      exact h

/-! ## A baseline fully-connected environment for concrete runs -/

/-- Connected, file exists, project open, all SDK calls succeed. -/
def baseEnv : Env where
  connectError := none
  fileExists := fun _ => true
  hasProject := true
  projectName := "MyProject"
  currentFolder := none
  root := Folder.node "Master" []
  addOk := fun _ _ => true
  importOk := true
  importedName := "clip001.mov"
  renameOk := true
  metadataOk := true
  metaErrMsg := "boom"
  jsonParse := fun _ => none
  platform := "darwin"
  winModulesError := none
  activateOk := true
  activateErrMsg := "err"
  osaKeystrokeOk := true

theorem status_zeroed (env : Env) :
    checkErrorZeroed (render (CmdResult.statusR (get_status env).1)) = true := by
  unfold get_status
  split
  · rfl
  · split
    · rfl
    · rfl

theorem list_zeroed (env : Env) :
    checkErrorZeroed (render (CmdResult.listR (list_folders env).1)) = true := by
  unfold list_folders
  split
  · rfl
  · split
    · rfl
    · rfl

theorem create_zeroed (env : Env) (folder_name : String) (parent_path : Option String) :
    checkErrorZeroed (render (CmdResult.createR
      (create_folder env folder_name parent_path).1)) = true := by
  simp only [create_folder]
  repeat' split
  all_goals rfl

theorem focus_zeroed_amended (env : Env) (clip_name : String)
    (target_folder search_shortcut : Option String) :
    checkErrorZeroedAmended (render (CmdResult.focusR
      (focus_and_search env clip_name target_folder search_shortcut).1)) = true := by
  simp only [focus_and_search]
  repeat' split
  all_goals exact checkAmended_of_base _ rfl

theorem import_zeroed_amended (env : Env) (file_path : String)
    (target_folder clip_name : Option String) (metadata : Option Metadata) :
    checkErrorZeroedAmended (render (CmdResult.importR
      (import_media env file_path target_folder clip_name metadata).1)) = true := by
  simp only [import_media]
  repeat' split
  all_goals first
  | rfl
  | exact checkAmended_of_base _ rfl

/-- **C2 (amended).** For every environment and every command line,
whenever the printed envelope carries an error (`success:false` or
`connected:false`), all operation-specific data fields in it are
zeroed out (null/empty) — with one exception: the import operation's
media-import-failure envelope (`error` =
`"Failed to import media into DaVinci Resolve"`), which carries the
current project and resolved folder names. -/
theorem error_envelopes_zeroed_amended (env : Env) (argv : List String) :
    checkErrorZeroedAmended (render (main_dispatch env argv).output) = true := by
  match argv with
  | [] => rfl
  | [_] => rfl
  | prog :: command :: args =>
    by_cases h1 : command = "status"
    · simp only [main_dispatch, if_pos h1]
      exact checkAmended_of_base _ (status_zeroed env)
    · by_cases h2 : command = "import"
      · rcases args with _ | ⟨fp, rest⟩
        · simp only [main_dispatch, if_neg h1, if_pos h2]; rfl
        · simp only [main_dispatch, if_neg h1, if_pos h2]
          exact import_zeroed_amended env fp _ _ _
      · by_cases h3 : command = "list-folders"
        · simp only [main_dispatch, if_neg h1, if_neg h2, if_pos h3]
          exact checkAmended_of_base _ (list_zeroed env)
        · by_cases h4 : command = "create-folder"
          · rcases args with _ | ⟨fn, rest⟩
            · simp only [main_dispatch, if_neg h1, if_neg h2, if_neg h3, if_pos h4]; rfl
            · simp only [main_dispatch, if_neg h1, if_neg h2, if_neg h3, if_pos h4]
              exact checkAmended_of_base _ (create_zeroed env fn _)
          · by_cases h5 : command = "focus-search"
            · rcases args with _ | ⟨cn, rest⟩
              · simp only [main_dispatch, if_neg h1, if_neg h2, if_neg h3, if_neg h4,
                  if_pos h5]
                rfl
              · simp only [main_dispatch, if_neg h1, if_neg h2, if_neg h3, if_neg h4,
                  if_pos h5]
                exact focus_zeroed_amended env cn _ _
            · simp only [main_dispatch, if_neg h1, if_neg h2, if_neg h3, if_neg h4,
                if_neg h5]
              rfl

/-- An environment in which the SDK `ImportMedia` call fails. -/
def envImportFail : Env := { baseEnv with importOk := false }

/-- **C2 counterexample.** The claim as stated is false: when the
`ImportMedia` call itself fails, the returned error envelope still
carries the project name (`"MyProject"`) and the folder name
(`"Master"`) — it is partially populated with data. -/
theorem error_envelope_partial_data_counterexample :
    (main_dispatch envImportFail ["bridge.py", "import", "/a.mov"]).output
      = CmdResult.importR ⟨false, some "Failed to import media into DaVinci Resolve",
          some "MyProject", some "Master", none⟩
    ∧ checkErrorZeroed
        (render (main_dispatch envImportFail ["bridge.py", "import", "/a.mov"]).output)
      = false :=
  ⟨rfl, rfl⟩

/-! ## Claim C1: importing a missing file -/

/-- An environment in which the application is not running. -/
def envNotRunning : Env :=
  { baseEnv with
    connectError := some "DaVinci Resolve is not running",
    fileExists := fun _ => false }

/-- An environment that is connected but where no file exists. -/
def envNoFile : Env := { baseEnv with fileExists := fun _ => false }

/-- **C1 counterexample.** The claim as stated is false on both counts
for the non-existent path `"/missing.mov"`: (a) when the application is
not running, the import returns the connection error, not
`"File not found: /missing.mov"` — because `initialize_resolve()` runs
before the existence check; and (b) even when connected, the SDK
connection attempt is made before the `File not found` result is
returned, so the result is not produced "without contacting the
application". -/
theorem import_missing_file_counterexample :
    (import_media envNotRunning "/missing.mov" none none none).1.error
      = some "DaVinci Resolve is not running"
    ∧ (some "DaVinci Resolve is not running" : Option String)
      ≠ some ("File not found: " ++ "/missing.mov")
    ∧ (import_media envNoFile "/missing.mov" none none none).2
      = [Event.connectAttempt] :=
  ⟨rfl, by decide, rfl⟩

/-- **C1 (amended).** The connection attempt happens first; when it
succeeds and the input file does not exist, the import returns exactly
`{success:false, error:"File not found: <path>", project:null,
folder:null}` (no `clipName` key), having performed only the
connection attempt and no other outward call. -/
theorem import_missing_file_after_connect (env : Env) (file_path : String)
    (target_folder clip_name : Option String) (metadata : Option Metadata)
    (hconn : env.connectError = none)
    (hfile : env.fileExists file_path = false) :
    import_media env file_path target_folder clip_name metadata
      = (⟨false, some ("File not found: " ++ file_path), none, none, none⟩,
          [Event.connectAttempt]) := by
  simp [import_media, hconn, hfile]

/-- **C1 witness.** The amended theorem applied at a connected
environment with no files, on the path `"/missing.mov"`. -/
theorem import_missing_file_after_connect_witness :
    envNoFile.connectError = none
    ∧ envNoFile.fileExists "/missing.mov" = false
    ∧ import_media envNoFile "/missing.mov" none none none
      = (⟨false, some ("File not found: " ++ "/missing.mov"), none, none, none⟩,
          [Event.connectAttempt]) :=
  ⟨rfl, rfl, import_missing_file_after_connect envNoFile "/missing.mov"
    none none none rfl rfl⟩

/-! ## Claim C8: rename / metadata failures never downgrade a
successful import -/

/-- **C8.** Whenever the media import itself succeeds (connected, file
exists, project open, `ImportMedia` returns a clip), the result is
`success:true` with a null error — for every rename outcome and every
metadata outcome: a `SetClipProperty` failure is swallowed and a
`SetMetadata` failure only prints a stderr warning. -/
theorem import_success_despite_rename_metadata_failures (env : Env)
    (file_path : String) (target_folder clip_name : Option String)
    (metadata : Option Metadata)
    (hconn : env.connectError = none)
    (hfile : env.fileExists file_path = true)
    (hproj : env.hasProject = true)
    (himp : env.importOk = true) :
    (import_media env file_path target_folder clip_name metadata).1.success = true
    ∧ (import_media env file_path target_folder clip_name metadata).1.error = none := by
  simp [import_media, hconn, hfile, hproj, himp]

/-- An environment in which both the clip rename and the metadata
tagging fail. -/
def envRenameMetaFail : Env := { baseEnv with renameOk := false, metadataOk := false }

/-- **C8 witness.** A concrete import with a requested clip name and
truthy metadata, in an environment where both the rename and the
metadata calls fail: it still succeeds with a null error (and the
metadata failure shows up only as a stderr warning in the trace). -/
theorem import_success_despite_rename_metadata_failures_witness :
    envRenameMetaFail.connectError = none
    ∧ envRenameMetaFail.fileExists "/a.mov" = true
    ∧ envRenameMetaFail.hasProject = true
    ∧ envRenameMetaFail.importOk = true
    ∧ envRenameMetaFail.renameOk = false
    ∧ envRenameMetaFail.metadataOk = false
    ∧ (import_media envRenameMetaFail "/a.mov" none (some "NewName")
        (some ⟨some "S1", none, none⟩)).1.success = true
    ∧ (import_media envRenameMetaFail "/a.mov" none (some "NewName")
        (some ⟨some "S1", none, none⟩)).1.error = none :=
  ⟨rfl, rfl, rfl, rfl, rfl, rfl,
    (import_success_despite_rename_metadata_failures envRenameMetaFail "/a.mov"
      none (some "NewName") (some ⟨some "S1", none, none⟩) rfl rfl rfl rfl).1,
    (import_success_despite_rename_metadata_failures envRenameMetaFail "/a.mov"
      none (some "NewName") (some ⟨some "S1", none, none⟩) rfl rfl rfl rfl).2⟩

/-! ## Claim C9: unknown commands -/

/-- **C9.** For every command name other than the five known
subcommands, the dispatcher returns exactly the single-key JSON object
`{"error": "Unknown command: <cmd>"}` (exit code 0, no outward calls);
the branch is a total function of its inputs, which models that it
never raises. -/
theorem unknown_command_error_envelope (env : Env) (prog cmd : String)
    (rest : List String)
    (h1 : cmd ≠ "status") (h2 : cmd ≠ "import") (h3 : cmd ≠ "list-folders")
    (h4 : cmd ≠ "create-folder") (h5 : cmd ≠ "focus-search") :
    main_dispatch env (prog :: cmd :: rest)
      = ⟨CmdResult.errorR ("Unknown command: " ++ cmd), [], 0⟩
    ∧ render (main_dispatch env (prog :: cmd :: rest)).output
      = [("error", JVal.jstr ("Unknown command: " ++ cmd))] := by
  have hm : main_dispatch env (prog :: cmd :: rest)
      = ⟨CmdResult.errorR ("Unknown command: " ++ cmd), [], 0⟩ := by
    simp only [main_dispatch, if_neg h1, if_neg h2, if_neg h3, if_neg h4, if_neg h5]
  exact ⟨hm, by rw [hm]; rfl⟩

/-- **C9 witness.** The unknown command `"frobnicate"`. -/
theorem unknown_command_error_envelope_witness :
    main_dispatch baseEnv ["bridge.py", "frobnicate"]
      = ⟨CmdResult.errorR ("Unknown command: " ++ "frobnicate"), [], 0⟩
    ∧ render (main_dispatch baseEnv ["bridge.py", "frobnicate"]).output
      = [("error", JVal.jstr ("Unknown command: " ++ "frobnicate"))] :=
  unknown_command_error_envelope baseEnv "bridge.py" "frobnicate" []
    (by decide) (by decide) (by decide) (by decide) (by decide)

/-! ## Claim C10: malformed metadata argument -/

/-- **C10.** When the fifth `import` argument fails to parse as JSON
(`json.loads` raises `JSONDecodeError`), the dispatcher behaves exactly
as if no metadata argument had been supplied: same envelope, same
outward calls, same exit code — the malformed argument is silently
dropped and no error is reported for it. -/
theorem malformed_metadata_ignored (env : Env) (prog fp tf cn ms : String)
    (h : env.jsonParse ms = none) :
    main_dispatch env [prog, "import", fp, tf, cn, ms]
      = main_dispatch env [prog, "import", fp, tf, cn] := by
  simp [main_dispatch, h]

/-- **C10 witness.** A concrete malformed-metadata import in the
baseline environment (whose JSON parser rejects everything). -/
theorem malformed_metadata_ignored_witness :
    baseEnv.jsonParse "not json" = none
    ∧ main_dispatch baseEnv ["bridge.py", "import", "/a.mov", "Folder", "Clip", "not json"]
      = main_dispatch baseEnv ["bridge.py", "import", "/a.mov", "Folder", "Clip"] :=
  ⟨rfl, malformed_metadata_ignored baseEnv "bridge.py" "/a.mov" "Folder" "Clip"
    "not json" rfl⟩

/-! ## Claim C3: the Windows focus-search keystrokes -/

/-- The `pyautogui.hotkey` calls in a trace. -/
def hotkeyOf : Event → Option (List String)
  | Event.hotkey keys => some keys
  | _ => none

/-- **C3.** On the Windows platform (`sys.platform = "win32"`), the
focus-search operation ignores the `search_shortcut` argument entirely
(its whole result — envelope and outward calls — is the same as with
no shortcut), and on the successful automation path the keystrokes it
sends are exactly ctrl+f followed by ctrl+v. -/
theorem windows_search_keystrokes_fixed (env : Env) (clip_name : String)
    (target_folder search_shortcut : Option String)
    (hplat : env.platform = "win32") :
    focus_and_search env clip_name target_folder search_shortcut
      = focus_and_search env clip_name target_folder none
    ∧ (env.connectError = none → env.hasProject = true →
        env.winModulesError = none → env.activateOk = true →
        (focus_and_search env clip_name target_folder search_shortcut).2.filterMap
            hotkeyOf
          = [["ctrl", "f"], ["ctrl", "v"]]) := by
  have hd : pyStartsWith "win32" "darwin" = false := by decide
  have hw : pyStartsWith "win32" "win" = true := by decide
  constructor
  · simp [focus_and_search, hplat, hd, hw]
  · intro h1 h2 h3 h4
    by_cases htf : truthy target_folder
    · simp [focus_and_search, hplat, hd, hw, h1, h2, h3, h4, htf, hotkeyOf]
    · simp [focus_and_search, hplat, hd, hw, h1, h2, h3, h4, htf, hotkeyOf]

/-- A Windows environment. -/
def envWin : Env := { baseEnv with platform := "win32" }

/-- **C3 witness.** A concrete Windows run with the shortcut
`"ctrl+g"`: the result equals the no-shortcut result and the sent
hotkeys are ctrl+f then ctrl+v. -/
theorem windows_search_keystrokes_fixed_witness :
    envWin.platform = "win32"
    ∧ focus_and_search envWin "Clip X" none (some "ctrl+g")
      = focus_and_search envWin "Clip X" none none
    ∧ (focus_and_search envWin "Clip X" none (some "ctrl+g")).2.filterMap hotkeyOf
      = [["ctrl", "f"], ["ctrl", "v"]] :=
  ⟨rfl,
    (windows_search_keystrokes_fixed envWin "Clip X" none (some "ctrl+g") rfl).1,
    (windows_search_keystrokes_fixed envWin "Clip X" none (some "ctrl+g") rfl).2
      rfl rfl rfl rfl⟩

/-! ## Claim C7: create-folder parent resolution -/

/-- Parent resolution as the original claim words it: for every
supplied parent-path argument, exact name match among the root's
immediate children only, the root when none matches (or when no
argument is supplied). -/
def claimParent (root : Folder) (parent_path : Option String) : Folder :=
  match parent_path with
  | none => root
  | some p => (firstNamed p root.subs).getD root

/-- Parent resolution as the amended claim words it: an absent or
empty parent-path argument selects the root; a nonempty one selects
the first exact-name-matching immediate child of the root, the root
when none matches. -/
def amendedParent (root : Folder) (parent_path : Option String) : Folder :=
  match parent_path with
  | none => root
  | some p => if p = "" then root else (firstNamed p root.subs).getD root

/-- A connected environment whose root has an immediate child whose
name is the empty string. -/
def envEmptyNameChild : Env :=
  { baseEnv with root := Folder.node "Master" [Folder.node "" []] }

/-- **C7 counterexample.** The claim as stated is false for the
parent-path argument `""` when the root has an immediate child named
`""`: exact name match would select that child, but the code's `if
parent_path:` truthiness guard skips the search for the empty string,
so the new folder is created under the root (as the `AddSubFolder`
call in the trace shows). -/
theorem create_folder_parent_resolution_counterexample :
    (create_folder envEmptyNameChild "New" (some "")).2
      = [Event.connectAttempt,
          Event.addSubFolder (Folder.node "Master" [Folder.node "" []]) "New"]
    ∧ claimParent envEmptyNameChild.root (some "") = Folder.node "" []
    ∧ (Folder.node "Master" [Folder.node "" []]).name ≠ (Folder.node "" []).name :=
  ⟨rfl, rfl, by decide⟩

/-- **C7 (amended).** When connected with an open project, the parent
of the created folder is resolved from the root's immediate children
only, by first exact name match, defaulting to the root when no child
matches or when the parent-path argument is absent or empty; the
subfolder is created under that parent (one `AddSubFolder` call) and
success or failure is reported accordingly. -/
theorem create_folder_parent_resolution_amended (env : Env)
    (folder_name : String) (parent_path : Option String)
    (hconn : env.connectError = none) (hproj : env.hasProject = true) :
    (create_folder env folder_name parent_path).2
      = [Event.connectAttempt,
          Event.addSubFolder (amendedParent env.root parent_path) folder_name]
    ∧ (create_folder env folder_name parent_path).1
      = (if env.addOk (amendedParent env.root parent_path) folder_name then
          ⟨true, none, some folder_name⟩
        else
          ⟨false, some ("Failed to create folder " ++ squote ++ folder_name ++ squote),
            none⟩) := by
  have hpar : (if truthy parent_path then
        (firstNamed (parent_path.getD "") env.root.subs).getD env.root
      else env.root) = amendedParent env.root parent_path := by
    match parent_path with
    | none => rfl
    | some p =>
      by_cases hp : p = ""
      · subst hp; rfl
      · simp [truthy, amendedParent, hp]
  have hstep : create_folder env folder_name parent_path
      = (if env.addOk (amendedParent env.root parent_path) folder_name then
          (⟨true, none, some folder_name⟩,
            [Event.connectAttempt,
              Event.addSubFolder (amendedParent env.root parent_path) folder_name])
        else
          (⟨false, some ("Failed to create folder " ++ squote ++ folder_name ++ squote),
              none⟩,
            [Event.connectAttempt,
              Event.addSubFolder (amendedParent env.root parent_path) folder_name])) := by
    simp only [create_folder, hconn, hproj, Bool.not_true]
    rw [hpar]
    simp
  constructor
  · rw [hstep]
    by_cases hok : env.addOk (amendedParent env.root parent_path) folder_name = true
    · rw [if_pos hok]
    · rw [if_neg hok]
  · rw [hstep]
    by_cases hok : env.addOk (amendedParent env.root parent_path) folder_name = true
    · rw [if_pos hok, if_pos hok]
    · rw [if_neg hok, if_neg hok]

/-- A connected environment whose root has an immediate child `A`. -/
def envParentA : Env :=
  { baseEnv with root := Folder.node "Master" [Folder.node "A" []] }

/-- **C7 witness.** Creating `"New"` under parent path `"A"`: the
`AddSubFolder` call targets the child `A` and success is reported. -/
theorem create_folder_parent_resolution_amended_witness :
    envParentA.connectError = none ∧ envParentA.hasProject = true
    ∧ (create_folder envParentA "New" (some "A")).2
      = [Event.connectAttempt, Event.addSubFolder (Folder.node "A" []) "New"]
    ∧ (create_folder envParentA "New" (some "A")).1 = ⟨true, none, some "New"⟩ :=
  ⟨rfl, rfl,
    ((create_folder_parent_resolution_amended envParentA "New" (some "A")
      rfl rfl).1).trans rfl,
    ((create_folder_parent_resolution_amended envParentA "New" (some "A")
      rfl rfl).2).trans rfl⟩
